import Mathlib

/-!
Shallow embedding of the score-normalization and maturity-classification
logic of the DMAP repository (src/DMAP/pdf_generator.py and
src/DMAP/test_enhanced_roadmap.py), together with theorems settling the
specification claims about it.

Python floats are modelled as rationals; every concrete value appearing in
the claims (half-integers, tenths) is exactly representable in binary
floating point, so the rational model agrees with the Python semantics on
all inputs the claims mention.  Python `None` is modelled as `Option.none`;
an expression that would raise a `TypeError` is modelled in `Except`.
-/

namespace DMAP

/-- Python's built-in `round` restricted to rational inputs: round to the
nearest integer, ties to the even neighbour (banker's rounding), which is
the documented behaviour of `round` in Python 3 and of IEEE-754
`roundTiesToEven` used for floats.  Used by `get_maturity_level` in
src/DMAP/pdf_generator.py line 373. -/
def pyRound (q : ℚ) : ℤ :=
  if q - ⌊q⌋ < 1/2 then ⌊q⌋
  else if 1/2 < q - ⌊q⌋ then ⌊q⌋ + 1
  else if ⌊q⌋ % 2 = 0 then ⌊q⌋ else ⌊q⌋ + 1

/-- The inline normalization step appearing identically in
`create_title_page`, `create_executive_summary`, `create_recommendations`
and `create_maturity_level` (src/DMAP/pdf_generator.py lines 133-138,
166-172, 322-327, 488-493): a raw value above 5 is treated as the legacy
20-100 scale and divided by 20, otherwise it is used as-is.  No clamping
is performed. -/
def normalize_score (score_val : ℚ) : ℚ :=
  if score_val > 5 then score_val / 20 else score_val

/-- The `rounded_score` computed by `get_maturity_level`
(src/DMAP/pdf_generator.py line 373):
`max(1, min(5, round(score))) if score and score > 0 else 1`.
The input is `Option ℚ` because the Python function is also reached with
`None`; Python truthiness of a float is `v ≠ 0`. -/
def rounded_score_of : Option ℚ → ℤ
  | Option.none => 1
  | some v => if v ≠ 0 ∧ v > 0 then max 1 (min 5 (pyRound v)) else 1

/-- `get_maturity_level` (src/DMAP/pdf_generator.py lines 370-384): the
clamped rounded score selects one of five fixed label strings. -/
def get_maturity_level (score : Option ℚ) : String :=
  if rounded_score_of score = 1 then "Level 1 - Initial"
  else if rounded_score_of score = 2 then "Level 2 - Developing"
  else if rounded_score_of score = 3 then "Level 3 - Defined"
  else if rounded_score_of score = 4 then "Level 4 - Managed"
  else "Level 5 - Optimized"

/-- A score object as read by the PDF generator: its `total_score`
attribute is either a number, Python `None`, or missing altogether. -/
inductive ScoreObj where
  | num (v : ℚ)
  | noneAttr
  | absent
deriving DecidableEq

/-- `getattr(score, 'total_score', 0)` (src/DMAP/pdf_generator.py lines
132, 166, 321, 487): a missing attribute yields the default `0`; an
attribute holding `None` yields `None` (modelled as `Option.none`). -/
def getattr_total_score : ScoreObj → Option ℚ
  | ScoreObj.num v => some v
  | ScoreObj.noneAttr => Option.none
  | ScoreObj.absent => some 0

/-- The normalization of one fetched `score_val`: a numeric value goes
through `normalize_score`; a `None` value raises a `TypeError` at the
comparison `score_val > 5` (modelled as `Except.error`). -/
def normalize_score_val : Option ℚ → Except Unit ℚ
  | some v => Except.ok (normalize_score v)
  | Option.none => Except.error ()

/-- The accumulation loop of `create_executive_summary`
(src/DMAP/pdf_generator.py lines 163-174): normalize every score and
return the running total together with the score count. -/
def exec_summary_score_loop : List ScoreObj → Except Unit (ℚ × ℕ)
  | [] => Except.ok (0, 0)
  | s :: rest =>
    match normalize_score_val (getattr_total_score s) with
    | Except.error e => Except.error e
    | Except.ok n =>
      match exec_summary_score_loop rest with
      | Except.error e => Except.error e
      | Except.ok td => Except.ok (n + td.1, td.2 + 1)

/-- The accumulation loop of `create_recommendations`
(src/DMAP/pdf_generator.py lines 317-329), textually identical to the one
in `create_executive_summary`. -/
def recommendations_score_loop : List ScoreObj → Except Unit (ℚ × ℕ)
  | [] => Except.ok (0, 0)
  | s :: rest =>
    match normalize_score_val (getattr_total_score s) with
    | Except.error e => Except.error e
    | Except.ok n =>
      match recommendations_score_loop rest with
      | Except.error e => Except.error e
      | Except.ok td => Except.ok (n + td.1, td.2 + 1)

/-- The accumulation loop of `create_maturity_level`
(src/DMAP/pdf_generator.py lines 483-495), textually identical to the one
in `create_executive_summary`. -/
def maturity_level_score_loop : List ScoreObj → Except Unit (ℚ × ℕ)
  | [] => Except.ok (0, 0)
  | s :: rest =>
    match normalize_score_val (getattr_total_score s) with
    | Except.error e => Except.error e
    | Except.ok n =>
      match maturity_level_score_loop rest with
      | Except.error e => Except.error e
      | Except.ok td => Except.ok (n + td.1, td.2 + 1)

/-- The average computed by `create_executive_summary`
(src/DMAP/pdf_generator.py line 176):
`avg_score = total_score / score_count if score_count > 0 else 0`. -/
def create_executive_summary_avg (scores : List ScoreObj) : Except Unit ℚ :=
  match exec_summary_score_loop scores with
  | Except.error e => Except.error e
  | Except.ok td => Except.ok (if td.2 > 0 then td.1 / (td.2 : ℚ) else 0)

/-- The average computed by `create_recommendations`
(src/DMAP/pdf_generator.py line 331):
`avg_score = total_score / score_count if score_count > 0 else 1.0`. -/
def create_recommendations_avg (scores : List ScoreObj) : Except Unit ℚ :=
  match recommendations_score_loop scores with
  | Except.error e => Except.error e
  | Except.ok td => Except.ok (if td.2 > 0 then td.1 / (td.2 : ℚ) else 1)

/-- The average computed by `create_maturity_level`
(src/DMAP/pdf_generator.py line 497):
`overall_score = total_score / score_count if score_count > 0 else 1.0`. -/
def create_maturity_level_avg (scores : List ScoreObj) : Except Unit ℚ :=
  match maturity_level_score_loop scores with
  | Except.error e => Except.error e
  | Except.ok td => Except.ok (if td.2 > 0 then td.1 / (td.2 : ℚ) else 1)

/-- Recommendation strings returned by `generate_recommendations` for
`overall_score < 2` (src/DMAP/pdf_generator.py lines 409-415). -/
def recommendations_below_two : List String :=
  ["Establish basic security policies and procedures",
   "Implement fundamental access controls",
   "Create incident response procedures",
   "Establish regular security training programs"]

/-- Recommendation strings returned by `generate_recommendations` for
`2 ≤ overall_score < 3` (src/DMAP/pdf_generator.py lines 416-422). -/
def recommendations_below_three : List String :=
  ["Document all security processes and procedures",
   "Implement regular security assessments",
   "Establish security metrics and monitoring",
   "Create formal risk management processes"]

/-- Recommendation strings returned by `generate_recommendations` for
`3 ≤ overall_score < 4` (src/DMAP/pdf_generator.py lines 423-429). -/
def recommendations_below_four : List String :=
  ["Implement automated security monitoring",
   "Establish security performance metrics",
   "Create continuous improvement processes",
   "Implement advanced threat detection"]

/-- Recommendation strings returned by `generate_recommendations` for
`overall_score ≥ 4` (src/DMAP/pdf_generator.py lines 430-436). -/
def recommendations_top_tier : List String :=
  ["Continue optimizing security processes",
   "Share best practices across the organization",
   "Implement predictive security analytics",
   "Lead industry security initiatives"]

/-- `generate_recommendations` (src/DMAP/pdf_generator.py lines 405-438):
a four-tier if/elif chain on the overall score. -/
def generate_recommendations (overall_score : ℚ) : List String :=
  if overall_score < 2 then recommendations_below_two
  else if overall_score < 3 then recommendations_below_three
  else if overall_score < 4 then recommendations_below_four
  else recommendations_top_tier

/-- The phase-bucket assignment performed inline by `test_roadmap_logic`
(src/DMAP/test_enhanced_roadmap.py lines 93-104): levels at most 2 go to
the first phase, level 3 to the second, level 4 to the third, and level 5
to none; the bucket labels come from the printed phase headers on lines
102-104 and 123-125 of the same file. -/
def get_improvement_phase_bucket (level : ℤ) : Option String :=
  if level ≤ 2 then some "0-3 months"
  else if level = 3 then some "3-6 months"
  else if level = 4 then some "6-12 months"
  else Option.none

/-! ### Helper lemmas about Python rounding -/

/-- `pyRound` never exceeds its argument by more than one half. -/
theorem pyRound_le (q : ℚ) : (pyRound q : ℚ) ≤ q + 1/2 := by
  have hf : (⌊q⌋ : ℚ) ≤ q := Int.floor_le q
  have hf1 : q < ⌊q⌋ + 1 := Int.lt_floor_add_one q
  unfold pyRound
  split_ifs with h1 h2 h3 <;> push_cast <;> linarith

/-- `pyRound` never falls short of its argument by more than one half. -/
theorem pyRound_ge (q : ℚ) : q - 1/2 ≤ (pyRound q : ℚ) := by
  have hf : (⌊q⌋ : ℚ) ≤ q := Int.floor_le q
  have hf1 : q < ⌊q⌋ + 1 := Int.lt_floor_add_one q
  unfold pyRound
  split_ifs with h1 h2 h3 <;> push_cast <;> linarith

/-- `pyRound` is monotone: rounding to the nearest integer with any
deterministic tie-break preserves order. -/
theorem pyRound_mono {x y : ℚ} (h : x ≤ y) : pyRound x ≤ pyRound y := by
  by_contra hc
  push_neg at hc
  have h3 : (pyRound y : ℚ) + 1 ≤ (pyRound x : ℚ) := by
    exact_mod_cast Int.add_one_le_iff.mpr hc
  have h1 := pyRound_le x
  have h2 := pyRound_ge y
  have hyx : y ≤ x := by linarith
  have hxy : x = y := le_antisymm h hyx
  rw [hxy] at hc
  exact absurd hc (lt_irrefl _)

/-! ### Shared evaluation lemmas -/

/-- The three textually identical accumulation loops compute the same
total and count on every input. -/
theorem score_loops_eq (scores : List ScoreObj) :
    exec_summary_score_loop scores = recommendations_score_loop scores ∧
    recommendations_score_loop scores = maturity_level_score_loop scores := by
  induction scores with
  | nil => exact ⟨rfl, rfl⟩
  | cons s rest ih =>
    constructor
    · simp only [exec_summary_score_loop, recommendations_score_loop, ih.1]
    · simp only [recommendations_score_loop, maturity_level_score_loop, ih.2]

/-! ### Claim theorems -/

/-- C1 counterexample: the raw score 6 lies in (5, 100], yet its
normalized value is 6/20 = 0.3, strictly below 1, and no clamping to
[1.0, 5.0] takes place anywhere in the normalization code. -/
theorem normalize_score_clamp_fails_at_six :
    5 < (6:ℚ) ∧ (6:ℚ) ≤ 100 ∧ normalize_score 6 < 1 := by
  norm_num [normalize_score]

/-- C1 (amended): the normalized score lies in [1.0, 5.0] whenever the
raw score lies in one of the two intended scales [1,5] or [20,100]; the
code never clamps the normalized score, so raw scores in (5,20) produce
values below 1. -/
theorem normalize_score_in_range_on_valid_scales (r : ℚ)
    (h : (1 ≤ r ∧ r ≤ 5) ∨ (20 ≤ r ∧ r ≤ 100)) :
    1 ≤ normalize_score r ∧ normalize_score r ≤ 5 := by
  unfold normalize_score
  rcases h with ⟨h1, h2⟩ | ⟨h1, h2⟩
  · rw [if_neg (by linarith)]
    exact ⟨h1, h2⟩
  · rw [if_pos (by linarith)]
    constructor <;> linarith

/-- C1 witness: the legacy raw score 82 normalizes into [1.0, 5.0]. -/
theorem normalize_score_in_range_witness :
    ((1 ≤ (82:ℚ) ∧ (82:ℚ) ≤ 5) ∨ (20 ≤ (82:ℚ) ∧ (82:ℚ) ≤ 100)) ∧
      (1 ≤ normalize_score 82 ∧ normalize_score 82 ≤ 5) :=
  ⟨Or.inr ⟨by norm_num, by norm_num⟩,
   normalize_score_in_range_on_valid_scales 82 (Or.inr ⟨by norm_num, by norm_num⟩)⟩

/-- C2: evaluation of `get_maturity_level` at the four half-way
midpoints.  Python's `round` rounds ties to the even neighbour, so 1.5
and 2.5 both give level 2 and 3.5 and 4.5 both give level 4 — the
repository test table expects 2.5 to give level 3 and 4.5 to give
level 5, which the code does not satisfy. -/
theorem get_maturity_level_half_points_round_to_even :
    get_maturity_level (some (3/2)) = "Level 2 - Developing" ∧
    get_maturity_level (some (5/2)) = "Level 2 - Developing" ∧
    get_maturity_level (some (7/2)) = "Level 4 - Managed" ∧
    get_maturity_level (some (9/2)) = "Level 4 - Managed" := by
  have h1 : rounded_score_of (some ((3:ℚ)/2)) = 2 := by
    norm_num [rounded_score_of, pyRound]
  have h2 : rounded_score_of (some ((5:ℚ)/2)) = 2 := by
    norm_num [rounded_score_of, pyRound]
  have h3 : rounded_score_of (some ((7:ℚ)/2)) = 4 := by
    norm_num [rounded_score_of, pyRound]
  have h4 : rounded_score_of (some ((9:ℚ)/2)) = 4 := by
    norm_num [rounded_score_of, pyRound]
  exact ⟨by simp [get_maturity_level, h1], by simp [get_maturity_level, h2],
         by simp [get_maturity_level, h3], by simp [get_maturity_level, h4]⟩

/-- C3: the normalizer returns the raw score unchanged when it is at most
5 and divides by 20 when it exceeds 5. -/
theorem normalize_score_cases (r : ℚ) (h : 0 ≤ r) :
    (r ≤ 5 → normalize_score r = r) ∧ (5 < r → normalize_score r = r / 20) := by
  constructor
  · intro h5
    unfold normalize_score
    rw [if_neg (by linarith)]
  · intro h5
    unfold normalize_score
    rw [if_pos h5]

/-- C3 witness: instantiation at the legacy raw score 82. -/
theorem normalize_score_cases_witness :
    (0 ≤ (82:ℚ)) ∧
      (((82:ℚ) ≤ 5 → normalize_score 82 = 82) ∧
       (5 < (82:ℚ) → normalize_score 82 = 82 / 20)) :=
  ⟨by norm_num, normalize_score_cases 82 (by norm_num)⟩

/-- C7: on each exact level input 1..5, `get_maturity_level` produces the
fixed label table entry 1 → Initial, 2 → Developing, 3 → Defined,
4 → Managed, 5 → Optimized. -/
theorem get_maturity_level_label_table :
    get_maturity_level (some 1) = "Level 1 - Initial" ∧
    get_maturity_level (some 2) = "Level 2 - Developing" ∧
    get_maturity_level (some 3) = "Level 3 - Defined" ∧
    get_maturity_level (some 4) = "Level 4 - Managed" ∧
    get_maturity_level (some 5) = "Level 5 - Optimized" := by
  have h1 : rounded_score_of (some (1:ℚ)) = 1 := by
    norm_num [rounded_score_of, pyRound]
  have h2 : rounded_score_of (some (2:ℚ)) = 2 := by
    norm_num [rounded_score_of, pyRound]
  have h3 : rounded_score_of (some (3:ℚ)) = 3 := by
    norm_num [rounded_score_of, pyRound]
  have h4 : rounded_score_of (some (4:ℚ)) = 4 := by
    norm_num [rounded_score_of, pyRound]
  have h5 : rounded_score_of (some (5:ℚ)) = 5 := by
    norm_num [rounded_score_of, pyRound]
  exact ⟨by simp [get_maturity_level, h1], by simp [get_maturity_level, h2],
         by simp [get_maturity_level, h3], by simp [get_maturity_level, h4],
         by simp [get_maturity_level, h5]⟩

/-- C5: the phase bucket table: levels 1 and 2 share the first bucket,
level 3 the second, level 4 the third, the three buckets are pairwise
distinct, and level 5 receives no bucket. -/
theorem improvement_phase_bucket_table :
    get_improvement_phase_bucket 1 = some "0-3 months" ∧
    get_improvement_phase_bucket 2 = some "0-3 months" ∧
    get_improvement_phase_bucket 3 = some "3-6 months" ∧
    get_improvement_phase_bucket 4 = some "6-12 months" ∧
    get_improvement_phase_bucket 5 = Option.none ∧
    ("0-3 months" : String) ≠ "3-6 months" ∧
    ("0-3 months" : String) ≠ "6-12 months" ∧
    ("3-6 months" : String) ≠ "6-12 months" := by
  refine ⟨?_, ?_, ?_, ?_, ?_, ?_, ?_, ?_⟩ <;>
    simp [get_improvement_phase_bucket]

/-- C6: for every score exactly one tier of the four-tier recommendation
table applies: the tiers are guarded by the mutually exclusive and
exhaustive conditions score < 2, 2 ≤ score < 3, 3 ≤ score < 4 and
4 ≤ score. -/
theorem generate_recommendations_four_tiers (s : ℚ) :
    (s < 2 ∧ generate_recommendations s = recommendations_below_two) ∨
    (2 ≤ s ∧ s < 3 ∧ generate_recommendations s = recommendations_below_three) ∨
    (3 ≤ s ∧ s < 4 ∧ generate_recommendations s = recommendations_below_four) ∨
    (4 ≤ s ∧ generate_recommendations s = recommendations_top_tier) := by
  unfold generate_recommendations
  by_cases h1 : s < 2
  · exact Or.inl ⟨h1, if_pos h1⟩
  · rw [if_neg h1]
    by_cases h2 : s < 3
    · exact Or.inr (Or.inl ⟨not_lt.mp h1, h2, if_pos h2⟩)
    · rw [if_neg h2]
      by_cases h3 : s < 4
      · exact Or.inr (Or.inr (Or.inl ⟨not_lt.mp h2, h3, if_pos h3⟩))
      · rw [if_neg h3]
        exact Or.inr (Or.inr (Or.inr ⟨not_lt.mp h3, rfl⟩))

/-- C8: the level computation of `get_maturity_level` (its
`rounded_score`) is monotonically non-decreasing over scores in [1, 5]. -/
theorem maturity_level_monotone (x y : ℚ) (hx : 1 ≤ x) (hxy : x ≤ y)
    (hy : y ≤ 5) :
    rounded_score_of (some x) ≤ rounded_score_of (some y) := by
  have hxc : x ≠ 0 ∧ x > 0 := ⟨by linarith, by linarith⟩
  have hyc : y ≠ 0 ∧ y > 0 := ⟨by linarith, by linarith⟩
  simp only [rounded_score_of, if_pos hxc, if_pos hyc]
  exact max_le_max le_rfl (min_le_min le_rfl (pyRound_mono hxy))

/-- C8 witness: instantiation at scores 2 and 3. -/
theorem maturity_level_monotone_witness :
    (1 ≤ (2:ℚ)) ∧ ((2:ℚ) ≤ 3) ∧ ((3:ℚ) ≤ 5) ∧
      rounded_score_of (some 2) ≤ rounded_score_of (some 3) :=
  ⟨by norm_num, by norm_num, by norm_num,
   maturity_level_monotone 2 3 (by norm_num) (by norm_num) (by norm_num)⟩

/-- C9: on every non-empty scores list the three duplicated
normalize-then-average computations of `create_executive_summary`,
`create_recommendations` and `create_maturity_level` agree (their
count-zero defaults 0, 1.0 and 1.0 are never reached). -/
theorem average_normalized_score_computations_agree
    (scores : List ScoreObj) (h : scores ≠ []) :
    create_executive_summary_avg scores = create_recommendations_avg scores ∧
    create_recommendations_avg scores = create_maturity_level_avg scores := by
  obtain ⟨s, rest, rfl⟩ := List.exists_cons_of_ne_nil h
  have hl := score_loops_eq (s :: rest)
  unfold create_executive_summary_avg create_recommendations_avg
    create_maturity_level_avg
  rw [hl.1, hl.2]
  simp only [maturity_level_score_loop]
  cases hn : normalize_score_val (getattr_total_score s) with
  | error e => exact ⟨rfl, trivial⟩
  | ok n =>
    cases hr : maturity_level_score_loop rest with
    | error e => exact ⟨rfl, trivial⟩
    | ok td => simp

/-- C9 witness: instantiation at the one-element list holding the raw
score 3. -/
theorem average_normalized_score_witness :
    ([ScoreObj.num 3] ≠ ([] : List ScoreObj)) ∧
      (create_executive_summary_avg [ScoreObj.num 3] =
         create_recommendations_avg [ScoreObj.num 3] ∧
       create_recommendations_avg [ScoreObj.num 3] =
         create_maturity_level_avg [ScoreObj.num 3]) :=
  ⟨by simp,
   average_normalized_score_computations_agree [ScoreObj.num 3] (by simp)⟩

/-- C10: `get_maturity_level` is total on degenerate inputs: `None` and
every score at most 0 yield level 1 with label Initial. -/
theorem get_maturity_level_total_on_degenerate_inputs :
    get_maturity_level Option.none = "Level 1 - Initial" ∧
    ∀ v : ℚ, v ≤ 0 → get_maturity_level (some v) = "Level 1 - Initial" := by
  constructor
  · simp [get_maturity_level, rounded_score_of]
  · intro v hv
    have h : rounded_score_of (some v) = 1 := by
      simp only [rounded_score_of]
      rw [if_neg]
      rintro ⟨h0, hpos⟩
      linarith
    simp [get_maturity_level, h]

/-- C10 witness: instantiation at the negative score -2. -/
theorem get_maturity_level_degenerate_witness :
    ((-2:ℚ) ≤ 0) ∧ get_maturity_level (some (-2)) = "Level 1 - Initial" :=
  ⟨by norm_num,
   get_maturity_level_total_on_degenerate_inputs.2 (-2) (by norm_num)⟩

/-- C4 counterexample: a score object whose `total_score` attribute is
missing is read as 0 by `getattr`, so the normalized overall score is 0,
not the claimed 1.0; and a score object whose `total_score` attribute is
`None` raises a `TypeError` at the comparison with 5, so an error is
raised after all. -/
theorem absent_score_not_defaulted_to_one :
    create_maturity_level_avg [ScoreObj.absent] = Except.ok 0 ∧
    ((Except.ok (0:ℚ) : Except Unit ℚ) ≠ Except.ok 1) ∧
    create_maturity_level_avg [ScoreObj.noneAttr] = Except.error () := by
  refine ⟨?_, ?_, ?_⟩
  · norm_num [create_maturity_level_avg, maturity_level_score_loop,
      normalize_score_val, getattr_total_score, normalize_score]
  · intro heq
    injection heq with hv
    exact absurd hv (by norm_num)
  · norm_num [create_maturity_level_avg, maturity_level_score_loop,
      normalize_score_val, getattr_total_score]

/-- C4 (amended): a missing `total_score` attribute defaults to 0 via
`getattr`, giving normalized score 0 which `get_maturity_level` still
maps to level 1 with label Initial (0 is falsy); a `total_score` of
`None` raises a `TypeError` in the scale comparison rather than
defaulting; the 1.0 default applies only to the overall average when the
score count is zero. -/
theorem absent_and_none_score_behavior :
    create_maturity_level_avg [ScoreObj.absent] = Except.ok 0 ∧
    get_maturity_level (some 0) = "Level 1 - Initial" ∧
    get_maturity_level Option.none = "Level 1 - Initial" ∧
    create_maturity_level_avg [ScoreObj.noneAttr] = Except.error () ∧
    create_recommendations_avg [] = Except.ok 1 := by
  refine ⟨?_, ?_, ?_, ?_, ?_⟩
  · norm_num [create_maturity_level_avg, maturity_level_score_loop,
      normalize_score_val, getattr_total_score, normalize_score]
  · norm_num [get_maturity_level, rounded_score_of]
  · simp [get_maturity_level, rounded_score_of]
  · norm_num [create_maturity_level_avg, maturity_level_score_loop,
      normalize_score_val, getattr_total_score]
  · norm_num [create_recommendations_avg, recommendations_score_loop]

end DMAP
